import Mathlib

/-!
# Verification of the linkedin-crawler record-extraction core

Shallow embedding of `src/crawler/crawler.py` (classes `Parser`, `Crawler`
and `BaseCrawler`).  Python strings are modelled as lists of characters
(`Str`), BeautifulSoup tags as a rose tree (`Node`), and every fallible
piece of code (anything that can raise `IndexError`, `NameError`, …)
returns an `Option`.  The Selenium-driven expansion loop
(`Crawler._expand_items`) is modelled as a function on lists of reveal
controls together with an explicit recursion-depth budget mirroring
`sys.setrecursionlimit(100)`.
-/

namespace LinkedinCrawler

/-- Python strings are sequences of code points; we model them as lists of
characters. -/
abbrev Str := List Char

/-- Embed a Lean string literal as a model string. -/
def str (s : String) : Str := s.data

/-- The whitespace class used by Python `str.split()` / `str.strip()`
(ASCII part: space, tab, newline, carriage return, vertical tab, form
feed). -/
def pyIsSpace (c : Char) : Bool :=
  c = ' ' || c = '\t' || c = '\n' || c = '\r' || c = '\x0b' || c = '\x0c'

/-- Helper for Python `str.split()` with no separator: `acc` holds the
(reversed) characters of the token currently being read. -/
def splitWsAux : Str → Str → List Str
  | [], acc => if acc = [] then [] else [acc.reverse]
  | c :: cs, acc =>
    if pyIsSpace c then
      if acc = [] then splitWsAux cs []
      else acc.reverse :: splitWsAux cs []
    else splitWsAux cs (c :: acc)

/-- Python `str.split()` with no separator: split on runs of whitespace,
discarding empty tokens. -/
def pySplitWs (l : Str) : List Str := splitWsAux l []

/-- Python `' '.join(...)`. -/
def joinSp : List Str → Str
  | [] => []
  | [t] => t
  | t :: ts => t ++ ' ' :: joinSp ts

/-- Python `str.strip()`: drop whitespace from both ends. -/
def pyStrip (l : Str) : Str :=
  ((l.dropWhile pyIsSpace).reverse.dropWhile pyIsSpace).reverse

/-- Helper for Python `str.split(sep)` with a one-character separator:
`acc` holds the (reversed) characters of the current piece. -/
def splitChAux (sep : Char) : Str → Str → List Str
  | [], acc => [acc.reverse]
  | c :: cs, acc =>
    if c = sep then acc.reverse :: splitChAux sep cs []
    else splitChAux sep cs (c :: acc)

/-- Python `str.split(sep)` for a one-character separator: splits at every
occurrence, keeping empty pieces; the result is never empty. -/
def pySplitChar (sep : Char) (l : Str) : List Str := splitChAux sep l []

/-- Python `str.replace('\n', ' ')` — a single-character pattern, hence a
character map. -/
def pyReplaceNl (l : Str) : Str := l.map (fun c => if c = '\n' then ' ' else c)

/-- Python `str.replace('  ', ' ')`: left-to-right, non-overlapping
replacement of two spaces by one. -/
def pyReplace2Sp : Str → Str
  | [] => []
  | [c] => [c]
  | c1 :: c2 :: rest =>
    if c1 = ' ' ∧ c2 = ' ' then ' ' :: pyReplace2Sp rest
    else c1 :: pyReplace2Sp (c2 :: rest)

/-- Helper for Python `str.replace(pat, rep)` with a non-empty pattern:
a skip count `k > 0` means `k` characters of an already-replaced pattern
occurrence remain to be consumed. -/
def replaceAux (pat rep : Str) : Str → Nat → Str
  | [], _ => []
  | _ :: cs, k + 1 => replaceAux pat rep cs k
  | c :: cs, 0 =>
    if (c :: cs).take pat.length = pat then
      rep ++ replaceAux pat rep cs (pat.length - 1)
    else c :: replaceAux pat rep cs 0

/-- Python `str.replace(pat, rep)`: left-to-right, non-overlapping
(our uses always have a non-empty pattern). -/
def pyReplace (pat rep l : Str) : Str :=
  if pat = [] then l else replaceAux pat rep l 0

/-- Python substring containment `pat in s`. -/
def hasSub (pat : Str) : Str → Bool
  | [] => pat.isEmpty
  | c :: cs => ((c :: cs).take pat.length == pat) || hasSub pat cs

/-! ## The document model

A BeautifulSoup tag tree: element nodes carry a tag name, a list of CSS
classes and children; text nodes carry a string (`NavigableString`). -/

inductive Node where
  | text (s : Str) : Node
  | elem (tag : String) (classes : List String) (children : List Node) : Node

mutual
/-- The subtree rooted at a node, flattened in document (pre-)order. -/
def subtreesN : Node → List Node
  | .text s => [Node.text s]
  | .elem t c ch => Node.elem t c ch :: subtreesL ch
/-- Subtrees of a forest, flattened in document (pre-)order. -/
def subtreesL : List Node → List Node
  | [] => []
  | n :: ns => subtreesN n ++ subtreesL ns
end

mutual
/-- `tag.get_text()`: concatenated text of all descendants, document
order. -/
def getTextN : Node → Str
  | .text s => s
  | .elem _ _ ch => getTextL ch
/-- Concatenated text of a forest. -/
def getTextL : List Node → Str
  | [] => []
  | n :: ns => getTextN n ++ getTextL ns
end

/-- Does the node match a CSS class selector `.cls`? -/
def hasClass (cls : String) : Node → Bool
  | .text _ => false
  | .elem _ classes _ => classes.contains cls

/-- Does the node match a tag-name selector? -/
def hasTag (t : String) : Node → Bool
  | .text _ => false
  | .elem tag _ _ => tag == t

/-- `tag.select(sel)`: all matching descendants of the tag (excluding the
tag itself), in document order. -/
def pySelect (p : Node → Bool) (n : Node) : List Node :=
  match n with
  | .text _ => []
  | .elem _ _ ch => (subtreesL ch).filter p

/-- BeautifulSoup truthiness: a `Tag` defines `__len__` as the number of
its children, and a `NavigableString` is truthy iff non-empty; an object
with `__len__` is falsy iff its length is zero. -/
def pyTruthy : Node → Bool
  | .text s => !s.isEmpty
  | .elem _ _ ch => !ch.isEmpty

/-- Python `len(tag)`: the number of children of the tag
(`len(tag.contents)`). -/
def pyLen : Node → Nat
  | .text s => s.length
  | .elem _ _ ch => ch.length

/-- Iterating over a `Tag` (`for row in elements`) yields its children. -/
def tagChildren : Node → List Node
  | .text _ => []
  | .elem _ _ ch => ch

/-- The `body` element the lxml parser wraps around the serialized
fragment's nodes. -/
def bodyWrap (entries : List Node) : Node := .elem "body" [] entries

/-- The root of `BeautifulSoup(html_section, 'lxml')`:
`soup.select('html')[0]` in `Crawler._get_section_elements` is an `html`
element whose sole child is the `body` wrapper holding the fragment's
top-level entries. -/
def htmlRoot (entries : List Node) : Node := .elem "html" [] [bodyWrap entries]

/-! ## Parser: the record extractors -/

/-- The record built by `Parser.parse_experience`. -/
structure ExperienceData where
  company : Str
  start_date : Str
  end_date : Str
  position : Str
  location : Str
  description : Str
deriving DecidableEq

/-- The record built by `Parser.parse_education`. -/
structure EducationData where
  school : Str
  field_of_study : Str
  degree : Str
  start_date : Str
  end_date : Str
deriving DecidableEq

/-- The record built by `Parser.parse_certification`. -/
structure CertificationData where
  company : Str
  title : Str
  issue_date : Str
  due_date : Str
  credential : Str
deriving DecidableEq

/-- The en-dash (U+2013), the character the date range is split on. -/
def enDash : Char := '–'

/-- `Parser.parse_experience`, description part: the first
`.pv-entity__description` match's text with `'\n'` mapped to spaces,
`'see less'` replaced by a space, double spaces collapsed, then
whitespace-split and joined with single spaces; an absent marker gives the
empty string. -/
def experience_description (row_content : Node) : Str :=
  match pySelect (hasClass "pv-entity__description") row_content with
  | [] => []
  | d :: _ =>
    joinSp (pySplitWs (pyReplace2Sp
      (pyReplace (str "see less") (str " ") (pyReplaceNl (getTextN d)))))

/-- `Parser.parse_experience`, location part: absent marker gives the
empty string, otherwise the text of the last `span` under the first
match (`[-1]` on no spans raises `IndexError`). -/
def experience_location (row_content : Node) : Option Str :=
  match pySelect (hasClass "pv-entity__location") row_content with
  | [] => some []
  | loc :: _ => ((pySelect (hasTag "span") loc).getLast?).map getTextN

/-- `Parser.parse_experience`, flat branch (`grouped_content` falsy):
position is the stripped text of the first `h3`; company is the first
`.pv-entity__secondary-title`'s text split on whitespace, tokens
containing the substring `"time"` dropped, the rest concatenated with no
separator. -/
def flat_position_company (row_content : Node) : Option (Str × Str) :=
  match (pySelect (hasTag "h3") row_content).head? with
  | none => none
  | some h3 =>
    match (pySelect (hasClass "pv-entity__secondary-title") row_content).head? with
    | none => none
    | some st =>
      some (pyStrip (getTextN h3),
        ((pySplitWs (getTextN st)).filter (fun t => !(hasSub (str "time") t))).flatten)

/-- `Parser.parse_experience`, grouped branch (`grouped_content` truthy):
position is the text of the last `span` under the first `h3` of the row;
company is the text of `span` number 1 under the first
`.pv-entity__company-summary-info` of the grouped content. -/
def grouped_position_company (row_content grouped_content : Node) : Option (Str × Str) :=
  match (pySelect (hasTag "h3") row_content).head? with
  | none => none
  | some h3 =>
    match (pySelect (hasTag "span") h3).getLast? with
    | none => none
    | some ps =>
      match (pySelect (hasClass "pv-entity__company-summary-info") grouped_content).head? with
      | none => none
      | some csi =>
        match (pySelect (hasTag "span") csi)[1]? with
        | none => none
        | some cs => some (pyStrip (getTextN ps), pyStrip (getTextN cs))

/-- `Parser.parse_experience`, date part: the text of `span` number 1
under the first `.pv-entity__date-range` match, split on the en-dash;
piece 0 stripped is the start date and piece 1 stripped is the end date
(`[1]` on a one-piece split — no en-dash — raises `IndexError`). -/
def experience_dates (row_content : Node) : Option (Str × Str) :=
  match (pySelect (hasClass "pv-entity__date-range") row_content).head? with
  | none => none
  | some dr =>
    match (pySelect (hasTag "span") dr)[1]? with
    | none => none
    | some dsp =>
      match (pySplitChar enDash (getTextN dsp))[0]?,
            (pySplitChar enDash (getTextN dsp))[1]? with
      | some s0, some s1 => some (pyStrip s0, pyStrip s1)
      | _, _ => none

/-- `Parser.parse_experience`.  `none` models the Python call raising
(`IndexError` at an unguarded `[...]`).  The grouped branch is taken iff
`grouped_content` is passed and truthy (`if grouped_content:`). -/
def parse_experience (row_content : Node) (grouped_content : Option Node) :
    Option ExperienceData :=
  match experience_location row_content with
  | none => none
  | some location =>
    match (match grouped_content with
           | some g =>
             if pyTruthy g then grouped_position_company row_content g
             else flat_position_company row_content
           | none => flat_position_company row_content) with
    | none => none
    | some pc =>
      match experience_dates row_content with
      | none => none
      | some dates =>
        some { company := pc.2, start_date := dates.1, end_date := dates.2,
               position := pc.1, location := location,
               description := experience_description row_content }

/-- `Parser.parse_education`, degree part: absent `.pv-entity__degree-name`
gives the empty string; a present one requires a `.pv-entity__comma-item`
inside it (`[0]` raises on absence). -/
def education_degree (current_item : Node) : Option Str :=
  match pySelect (hasClass "pv-entity__degree-name") current_item with
  | [] => some []
  | d :: _ => ((pySelect (hasClass "pv-entity__comma-item") d).head?).map getTextN

/-- `Parser.parse_education`, field-of-study part: absent
`.pv-entity__fos` gives the empty string; a present one requires a `span`
inside it (`[-1]` raises on absence). -/
def education_fos (current_item : Node) : Option Str :=
  match pySelect (hasClass "pv-entity__fos") current_item with
  | [] => some []
  | f :: _ => ((pySelect (hasTag "span") f).getLast?).map getTextN

/-- `Parser.parse_education`, school part: the first
`.pv-entity__school-name`'s text, or the empty string. -/
def education_school (current_item : Node) : Str :=
  match pySelect (hasClass "pv-entity__school-name") current_item with
  | [] => []
  | sn :: _ => getTextN sn

/-- `Parser.parse_education`, dates part.  `select('.pv-entity__dates')[0]`
raises `IndexError` when no such block exists; when the first block is
falsy (an empty tag) the `if` body is skipped and the record construction
raises `NameError` on the unbound `start_date` — either way the entry
yields no record.  Otherwise the first two `time` descendants are read
(`[0]`/`[1]` raise when fewer than two exist). -/
def education_dates (current_item : Node) : Option (Str × Str) :=
  match (pySelect (hasClass "pv-entity__dates") current_item).head? with
  | none => none
  | some dts =>
    if pyTruthy dts then
      match (pySelect (hasTag "time") dts)[0]?, (pySelect (hasTag "time") dts)[1]? with
      | some t0, some t1 => some (getTextN t0, getTextN t1)
      | _, _ => none
    else none

/-- `Parser.parse_education`.  `none` models the Python call raising. -/
def parse_education (row_content : Node) : Option EducationData :=
  match (pySelect (hasClass "pv-entity__summary-info") row_content).head? with
  | none => none
  | some current_item =>
    match education_degree current_item with
    | none => none
    | some degree =>
      match education_fos current_item with
      | none => none
      | some field_of_study =>
        match education_dates current_item with
        | none => none
        | some dates =>
          some { school := education_school current_item,
                 field_of_study := field_of_study, degree := degree,
                 start_date := dates.1, end_date := dates.2 }

/-- `Parser.parse_certification`, span-indexed fields.  With a non-empty
span collection, company is the unguarded `select('span')[1]`; the other
three are guarded by `len(current_item)` — the number of *children* of the
summary block, not the number of spans — and read spans 3, 4 and 5.  With
an empty collection all four are empty strings. -/
def certification_main_fields (current_item : Node) : Option (Str × Str × Str × Str) :=
  let spans := pySelect (hasTag "span") current_item
  if spans.isEmpty then some ([], [], [], [])
  else
    match spans[1]? with
    | none => none
    | some csp =>
      match (if pyLen current_item ≤ 3 then some ([] : Str)
             else (spans[3]?).map getTextN) with
      | none => none
      | some issue_date =>
        match (if pyLen current_item ≤ 4 then some ([] : Str)
               else (spans[4]?).map getTextN) with
        | none => none
        | some due_date =>
          match (if pyLen current_item ≤ 5 then some ([] : Str)
                 else (spans[5]?).map getTextN) with
          | none => none
          | some credential => some (getTextN csp, issue_date, due_date, credential)

/-- `Parser.parse_certification`, title part: the first `h3`'s text, or
the empty string. -/
def certification_title (current_item : Node) : Str :=
  match pySelect (hasTag "h3") current_item with
  | [] => []
  | h :: _ => getTextN h

/-- `Parser.parse_certification`.  `none` models the Python call raising. -/
def parse_certification (row_content : Node) : Option CertificationData :=
  match (pySelect (hasClass "pv-certifications__summary-info") row_content).head? with
  | none => none
  | some current_item =>
    match certification_main_fields current_item with
    | none => none
    | some fields =>
      some { company := fields.1, title := certification_title current_item,
             issue_date := fields.2.1, due_date := fields.2.2.1,
             credential := fields.2.2.2 }

/-- The normalization applied by `Parser.parse_about`:
`' '.join(text.replace('\n', ' ').replace('  ', ' ').split())`. -/
def about_normalize (s : Str) : Str :=
  joinSp (pySplitWs (pyReplace2Sp (pyReplaceNl s)))

/-- `Parser.parse_about`. -/
def parse_about (row_content : Node) : Str := about_normalize (getTextN row_content)

/-! ## Crawler: section fetchers -/

/-- `Crawler._fetch_arbitrary_data` composed with
`Crawler._get_section_elements`: `elements = soup.select('html')[0]` is a
bs4 `Tag`, and a `Tag` is never an instance of the Python `list` type, so
`if not isinstance(elements, list)` always takes the early return
`[parser_method(elements)]`; the per-item loop below it is unreachable. -/
def fetch_arbitrary_data {α : Type} (parser_method : Node → Option α)
    (entries : List Node) : Option (List α) :=
  (parser_method (htmlRoot entries)).map (fun r => [r])

/-- `Crawler.fetch_education_data` on a fragment given by its top-level
entries. -/
def fetch_education_data (entries : List Node) : Option (List EducationData) :=
  fetch_arbitrary_data parse_education entries

/-- `Crawler.fetch_certification_data` on a fragment given by its
top-level entries. -/
def fetch_certification_data (entries : List Node) : Option (List CertificationData) :=
  fetch_arbitrary_data parse_certification entries

/-- The inner loop of the grouped branch of `Crawler.fetch_experience_data`:
`for row_detail in row.select('.pv-entity__role-details'):
experiences.append(Parser.parse_experience(row_detail, row))`. -/
def appendGroupedRecords (row : Node) : List Node → List ExperienceData →
    Option (List ExperienceData)
  | [], acc => some acc
  | rd :: rds, acc =>
    match parse_experience rd (some row) with
    | none => none
    | some r => appendGroupedRecords row rds (acc ++ [r])

/-- The grouped-path contribution of one entry, structured: one record per
role sub-entry, in document order of `select('.pv-entity__role-details')`. -/
def grouped_records (row : Node) : List Node → Option (List ExperienceData)
  | [] => some []
  | rd :: rds =>
    match parse_experience rd (some row), grouped_records row rds with
    | some r, some rs => some (r :: rs)
    | _, _ => none

/-- The body of the `for row in elements` loop of
`Crawler.fetch_experience_data`: the grouped check
(`if row.select('.pv-entity__company-summary-info'):`) and the flat check
(`if row.select('.pv-entity__secondary-title'):`) are two independent
`if`s, each appending to the accumulator. -/
def experience_row_step (row : Node) (acc : List ExperienceData) :
    Option (List ExperienceData) :=
  match (if (pySelect (hasClass "pv-entity__company-summary-info") row).isEmpty
         then some acc
         else appendGroupedRecords row
                (pySelect (hasClass "pv-entity__role-details") row) acc) with
  | none => none
  | some acc1 =>
    if (pySelect (hasClass "pv-entity__secondary-title") row).isEmpty then some acc1
    else (parse_experience row none).map (fun r => acc1 ++ [r])

/-- The `for row in elements` loop of `Crawler.fetch_experience_data`. -/
def fetch_experience_loop : List Node → List ExperienceData →
    Option (List ExperienceData)
  | [], acc => some acc
  | row :: rest, acc =>
    match experience_row_step row acc with
    | none => none
    | some acc1 => fetch_experience_loop rest acc1

/-- `Crawler.fetch_experience_data` on a fragment given by its top-level
entries.  `_get_section_elements` returns the `html` element and
`for row in elements` iterates its children: with the lxml parser that is
the single `body` wrapper, so the loop body runs exactly once, on the
whole fragment. -/
def fetch_experience_data (entries : List Node) : Option (List ExperienceData) :=
  fetch_experience_loop (tagChildren (htmlRoot entries)) []

/-- The contribution of a single top-level entry to
`fetch_experience_data`: the loop body run on an empty accumulator. -/
def row_records (row : Node) : Option (List ExperienceData) :=
  experience_row_step row []

/-! ## Crawler: the expander (`_expand_items`) -/

/-- A reveal control as the document driver exposes it to
`Crawler._expand_items`.  `ariaExpanded` is the value of
`get_attribute('aria-expanded')` (`none` models an absent attribute);
`clickable` records whether the element is actually clickable;
`stale` means the element reference is stale, so reading its attribute
raises `StaleElementReferenceException`. -/
structure RevealControl where
  ariaExpanded : Option Str
  clickable : Bool
  stale : Bool
deriving DecidableEq

/-- Model of the external document driver: dispatching a click on a
reveal control sets its expanded-state attribute to `"true"` (spec
sections 4.1 and 8: a re-scan after clicking finds the control expanded). -/
def driver_click (c : RevealControl) : RevealControl :=
  { c with ariaExpanded := some (str "true") }

/-- `EC.element_to_be_clickable(element)` in the source constructs the
selenium expected-condition object and never invokes it; a plain object is
truthy, so this conjunct of the click condition is always true regardless
of the control's actual clickability. -/
def ec_element_to_be_clickable (_ : RevealControl) : Bool := true

/-- One pass of the `for element in elements` loop in
`Crawler._expand_items`: a stale element's attribute read raises
`StaleElementReferenceException`, which is caught (`continue`); otherwise
the element is clicked iff `get_attribute('aria-expanded') != 'true'` and
the (always-truthy) clickability conjunct holds.  Returns the controls
after the pass and the number of clicks dispatched. -/
def scan_pass : List RevealControl → List RevealControl × Nat
  | [] => ([], 0)
  | c :: cs =>
    if c.stale then
      let r := scan_pass cs
      (c :: r.1, r.2)
    else if (c.ariaExpanded != some (str "true")) && ec_element_to_be_clickable c then
      let r := scan_pass cs
      (driver_click c :: r.1, r.2 + 1)
    else
      let r := scan_pass cs
      (c :: r.1, r.2)

/-- `Crawler._expand_items` with a remaining recursion-depth budget `d`:
after each pass the method calls itself unconditionally; at depth 0 the
recursive call raises `RecursionError` before executing its body, the
caller's `except RecursionError: return` catches it, and expansion returns
normally.  Returns (final controls, total clicks dispatched, passes
executed). -/
def expand_items : Nat → List RevealControl → List RevealControl × Nat × Nat
  | 0, cs => (cs, 0, 0)
  | d + 1, cs =>
    let p1 := scan_pass cs
    let rest := expand_items d p1.1
    (rest.1, p1.2 + rest.2.1, rest.2.2 + 1)

/-- `sys.setrecursionlimit(100)` in `BaseCrawler.__init__`: the fixed
depth ceiling of the expansion recursion. -/
def recursion_limit : Nat := 100

/-! ### Concrete fragments used by witnesses and counterexamples -/

/-- A bare span wrapping a text node. -/
def witSpan (t : String) : Node := .elem "span" [] [.text (str t)]

def c1roleDetail : Node :=
  .elem "div" ["pv-entity__role-details"]
    [ .elem "h3" [] [witSpan "Title", witSpan "Dev"],
      .elem "div" ["pv-entity__date-range"]
        [witSpan "Dates", witSpan "Jan 2019 – Feb 2020"] ]

/-- An experience entry carrying both the grouped and the flat marker. -/
def c1row : Node :=
  .elem "div" []
    [ .elem "div" ["pv-entity__company-summary-info"]
        [witSpan "Company", witSpan "AcmeCorp"],
      .elem "span" ["pv-entity__secondary-title"] [.text (str "BetaInc")],
      c1roleDetail ]

def c1grec : ExperienceData :=
  { company := str "AcmeCorp", start_date := str "Jan 2019", end_date := str "Feb 2020",
    position := str "Dev", location := [], description := [] }

def c1frec : ExperienceData :=
  { company := str "BetaInc", start_date := str "Jan 2019", end_date := str "Feb 2020",
    position := str "TitleDev", location := [], description := [] }

/-- A flat-only experience entry. -/
def c10flatRow : Node :=
  .elem "div" []
    [ .elem "h3" [] [.text (str "Analyst")],
      .elem "span" ["pv-entity__secondary-title"] [.text (str "DataCo")],
      .elem "div" ["pv-entity__date-range"]
        [witSpan "d", witSpan "Mar 2015 – Jun 2016"] ]

def c10flatRec : ExperienceData :=
  { company := str "DataCo", start_date := str "Mar 2015", end_date := str "Jun 2016",
    position := str "Analyst", location := [], description := [] }

def c10roleDetail : Node :=
  .elem "div" ["pv-entity__role-details"]
    [ .elem "h3" [] [witSpan "Role", witSpan "Dev"],
      .elem "div" ["pv-entity__date-range"]
        [witSpan "d2", witSpan "Jul 2017 – Aug 2018"] ]

/-- A grouped-only experience entry (no secondary-title of its own). -/
def c10groupedRow : Node :=
  .elem "div" []
    [ .elem "div" ["pv-entity__company-summary-info"]
        [witSpan "Company", witSpan "OmegaCorp"],
      c10roleDetail ]

def c10groupedRec : ExperienceData :=
  { company := str "OmegaCorp", start_date := str "Jul 2017", end_date := str "Aug 2018",
    position := str "Dev", location := [], description := [] }

def c2entry1 : Node :=
  .elem "div" []
    [ .elem "div" ["pv-entity__summary-info"]
        [ .elem "div" ["pv-entity__school-name"] [.text (str "School A")],
          .elem "div" ["pv-entity__dates"]
            [ .elem "time" [] [.text (str "2001")],
              .elem "time" [] [.text (str "2005")] ] ] ]

def c2entry2 : Node :=
  .elem "div" []
    [ .elem "div" ["pv-entity__summary-info"]
        [ .elem "div" ["pv-entity__school-name"] [.text (str "School B")],
          .elem "div" ["pv-entity__dates"]
            [ .elem "time" [] [.text (str "2006")],
              .elem "time" [] [.text (str "2010")] ] ] ]

def c2rec1 : EducationData :=
  { school := str "School A", field_of_study := [], degree := [],
    start_date := str "2001", end_date := str "2005" }

/-- The spec's scenario fragment for the flat experience variant. -/
def c3row : Node :=
  .elem "div" []
    [ .elem "h3" [] [.text (str "Engineer")],
      .elem "span" ["pv-entity__secondary-title"] [.text (str "Full-time · Acme")],
      .elem "div" ["pv-entity__date-range"]
        [ .elem "span" [] [], witSpan "Jan 2020 – Mar 2021" ] ]

def c3record : ExperienceData :=
  { company := str "·Acme", start_date := str "Jan 2020", end_date := str "Mar 2021",
    position := str "Engineer", location := [], description := [] }

/-- An education entry whose summary block has no date-pair marker. -/
def c4row : Node :=
  .elem "div" []
    [ .elem "div" ["pv-entity__summary-info"]
        [ .elem "div" ["pv-entity__school-name"] [.text (str "School C")] ] ]

/-- A certification entry whose summary block holds exactly one span. -/
def c5oneSpanRow : Node :=
  .elem "div" []
    [ .elem "div" ["pv-certifications__summary-info"]
        [ witSpan "Issuer" ] ]

/-- A certification entry whose summary block holds no span at all. -/
def c5noSpanRow : Node :=
  .elem "div" []
    [ .elem "div" ["pv-certifications__summary-info"]
        [ .elem "h3" [] [.text (str "Cert Title")] ] ]

def c6dsp : Node := witSpan "Apr 2018 – May 2019"

def c6dr : Node := .elem "div" ["pv-entity__date-range"] [witSpan "x", c6dsp]

/-- A flat experience entry for the date-range claim. -/
def c6row : Node :=
  .elem "div" []
    [ .elem "h3" [] [.text (str "Dev")],
      .elem "span" ["pv-entity__secondary-title"] [.text (str "Gamma LLC")],
      c6dr ]

/-- The spec's scenario: three controls, two already expanded, one
unexpanded and clickable. -/
def c8controls : List RevealControl :=
  [ { ariaExpanded := some (str "true"), clickable := false, stale := false },
    { ariaExpanded := some (str "true"), clickable := false, stale := false },
    { ariaExpanded := none, clickable := true, stale := false } ]

/-! ### Properties of the string model -/

theorem splitChAux_length (sep : Char) :
    ∀ l acc, (splitChAux sep l acc).length = l.count sep + 1 := by
  intro l
  induction l with
  | nil => intro acc; simp [splitChAux]
  | cons c cs ih =>
    intro acc
    by_cases h : c = sep
    · simp [splitChAux, h, ih, List.count_cons]
    · simp [splitChAux, h, ih, List.count_cons]

theorem pySplitChar_two_le_iff (sep : Char) (l : Str) :
    2 ≤ (pySplitChar sep l).length ↔ sep ∈ l := by
  rw [pySplitChar, splitChAux_length]
  constructor
  · intro h
    exact List.count_pos_iff.mp (by omega)
  · intro h
    have := List.count_pos_iff.mpr h
    omega

theorem pySplitChar_getElem?_one_isSome_iff (sep : Char) (l : Str) :
    (pySplitChar sep l)[1]?.isSome ↔ sep ∈ l := by
  rw [← pySplitChar_two_le_iff sep l]
  rcases h : pySplitChar sep l with _ | ⟨a, _ | ⟨b, rest⟩⟩ <;> simp
theorem pySplitChar_getElem?_zero_isSome (sep : Char) (l : Str) :
    (pySplitChar sep l)[0]?.isSome := by
  have h := splitChAux_length sep l []
  rcases hc : pySplitChar sep l with _ | ⟨a, rest⟩
  · rw [pySplitChar] at hc; rw [hc] at h; simp at h
  · simp


/-! ### Tokens of a whitespace split are non-empty and whitespace-free -/

theorem splitWsAux_good :
    ∀ l acc, (∀ c ∈ acc, pyIsSpace c = false) →
      ∀ t ∈ splitWsAux l acc, t ≠ [] ∧ ∀ c ∈ t, pyIsSpace c = false := by
  intro l
  induction l with
  | nil =>
    intro acc hacc t ht
    simp only [splitWsAux] at ht
    split at ht
    · simp at ht
    · next hne =>
      simp only [List.mem_singleton] at ht
      subst ht
      refine ⟨by simpa using hne, ?_⟩
      intro c hc; exact hacc c (List.mem_reverse.mp hc)
  | cons c cs ih =>
    intro acc hacc t ht
    simp only [splitWsAux] at ht
    by_cases hsp : pyIsSpace c = true
    · rw [if_pos hsp] at ht
      split at ht
      · exact ih [] (by simp) t ht
      · next hne =>
        rcases List.mem_cons.mp ht with h | h
        · subst h
          refine ⟨by simpa using hne, ?_⟩
          intro x hx; exact hacc x (List.mem_reverse.mp hx)
        · exact ih [] (by simp) t h
    · rw [if_neg hsp] at ht
      refine ih (c :: acc) ?_ t ht
      intro x hx
      rcases List.mem_cons.mp hx with h | h
      · subst h; simpa using hsp
      · exact hacc x h

theorem pySplitWs_good (l : Str) :
    ∀ t ∈ pySplitWs l, t ≠ [] ∧ ∀ c ∈ t, pyIsSpace c = false :=
  splitWsAux_good l [] (by simp)

/-! ### Normalized strings are fixed points of each normalization stage -/

theorem joinSp_cons_cons (t u : Str) (us : List Str) :
    joinSp (t :: u :: us) = t ++ ' ' :: joinSp (u :: us) := rfl

theorem mem_joinSp {c : Char} : ∀ {ts : List Str}, c ∈ joinSp ts →
    c = ' ' ∨ ∃ t ∈ ts, c ∈ t := by
  intro ts
  induction ts with
  | nil => intro h; simp [joinSp] at h
  | cons t ts ih =>
    cases ts with
    | nil =>
      intro h; right; exact ⟨t, by simp, by simpa [joinSp] using h⟩
    | cons u us =>
      intro h
      rw [joinSp_cons_cons] at h
      rcases List.mem_append.mp h with h | h
      · right; exact ⟨t, by simp, h⟩
      · rcases List.mem_cons.mp h with h | h
        · left; exact h
        · rcases ih h with h | ⟨v, hv, hc⟩
          · left; exact h
          · right; exact ⟨v, by simp [hv], hc⟩

theorem pyReplaceNl_eq_self {l : Str} (h : ∀ c ∈ l, c ≠ '\n') : pyReplaceNl l = l := by
  rw [pyReplaceNl]
  conv_rhs => rw [← List.map_id l]
  apply List.map_congr_left
  intro a ha
  simp [h a ha]

theorem pyReplace2Sp_token_append :
    ∀ t, (∀ c ∈ t, pyIsSpace c = false) →
      ∀ rest, pyReplace2Sp (t ++ rest) = t ++ pyReplace2Sp rest := by
  intro t
  induction t with
  | nil => intro _ rest; simp
  | cons a t ih =>
    intro h rest
    have ha : a ≠ ' ' := by
      intro e; subst e
      have := h ' ' (by simp)
      simp [pyIsSpace] at this
    cases t with
    | nil =>
      cases rest with
      | nil => simp [pyReplace2Sp]
      | cons b bs =>
        simp only [List.cons_append, List.nil_append]
        simp only [pyReplace2Sp]
        rw [if_neg (fun hand => ha hand.1)]
    | cons b t' =>
      simp only [List.cons_append]
      simp only [pyReplace2Sp]
      rw [if_neg (fun hand => ha hand.1)]
      rw [← List.cons_append]
      rw [ih (fun x hx => h x (by simp [hx])) rest]
      simp

theorem joinSp_head_not_space {u : Str} (us : List Str)
    (hne : u ≠ []) (hsp : ∀ c ∈ u, pyIsSpace c = false) :
    ∃ c cs, joinSp (u :: us) = c :: cs ∧ pyIsSpace c = false := by
  rcases u with _ | ⟨c, cs⟩
  · exact absurd rfl hne
  · cases us with
    | nil => exact ⟨c, cs, by simp [joinSp], hsp c (by simp)⟩
    | cons v vs =>
      rw [joinSp_cons_cons]
      exact ⟨c, cs ++ ' ' :: joinSp (v :: vs), by simp, hsp c (by simp)⟩

theorem pyReplace2Sp_joinSp (ts : List Str)
    (h : ∀ t ∈ ts, t ≠ [] ∧ ∀ c ∈ t, pyIsSpace c = false) :
    pyReplace2Sp (joinSp ts) = joinSp ts := by
  induction ts with
  | nil => simp [joinSp, pyReplace2Sp]
  | cons t ts ih =>
    obtain ⟨htne, htsp⟩ := h t (by simp)
    cases ts with
    | nil =>
      have h2 := pyReplace2Sp_token_append t htsp []
      simpa [joinSp, pyReplace2Sp] using h2
    | cons u us =>
      rw [joinSp_cons_cons]
      rw [pyReplace2Sp_token_append t htsp (' ' :: joinSp (u :: us))]
      congr 1
      obtain ⟨hune, husp⟩ := h u (by simp)
      obtain ⟨c, cs, hj, hc⟩ := joinSp_head_not_space us hune husp
      rw [hj]
      simp only [pyReplace2Sp]
      rw [if_neg (fun hand => by rw [hand.2] at hc; simp [pyIsSpace] at hc)]
      rw [← hj]
      rw [ih (fun x hx => h x (by simp [hx]))]

theorem splitWsAux_token_append :
    ∀ t, (∀ c ∈ t, pyIsSpace c = false) → ∀ rest acc,
      splitWsAux (t ++ rest) acc = splitWsAux rest (t.reverse ++ acc) := by
  intro t
  induction t with
  | nil => intro _ rest acc; simp
  | cons c t ih =>
    intro h rest acc
    have hc : pyIsSpace c = false := h c (by simp)
    simp only [List.cons_append, splitWsAux, List.append_eq]
    rw [if_neg (by simp [hc])]
    rw [ih (fun x hx => h x (by simp [hx])) rest (c :: acc)]
    simp [List.append_assoc]

theorem pySplitWs_joinSp (ts : List Str)
    (h : ∀ t ∈ ts, t ≠ [] ∧ ∀ c ∈ t, pyIsSpace c = false) :
    pySplitWs (joinSp ts) = ts := by
  induction ts with
  | nil => simp [pySplitWs, joinSp, splitWsAux]
  | cons t ts ih =>
    obtain ⟨htne, htsp⟩ := h t (by simp)
    cases ts with
    | nil =>
      show splitWsAux (joinSp [t]) [] = [t]
      have hj : joinSp [t] = t ++ [] := by simp [joinSp]
      rw [hj, splitWsAux_token_append t htsp [] []]
      simp [splitWsAux, htne]
    | cons u us =>
      show splitWsAux (joinSp (t :: u :: us)) [] = t :: u :: us
      rw [joinSp_cons_cons, splitWsAux_token_append t htsp (' ' :: joinSp (u :: us)) []]
      simp only [List.append_nil, splitWsAux]
      rw [if_pos (by simp [pyIsSpace])]
      rw [if_neg (by simp [htne])]
      rw [List.reverse_reverse]
      have hih : splitWsAux (joinSp (u :: us)) [] = u :: us :=
        ih (fun x hx => h x (by simp [hx]))
      rw [hih]

theorem about_normalize_joinSp (ts : List Str)
    (h : ∀ t ∈ ts, t ≠ [] ∧ ∀ c ∈ t, pyIsSpace c = false) :
    about_normalize (joinSp ts) = joinSp ts := by
  rw [about_normalize, pyReplaceNl_eq_self, pyReplace2Sp_joinSp ts h,
    pySplitWs_joinSp ts h]
  intro c hc
  rcases mem_joinSp hc with h1 | ⟨t, ht, hc2⟩
  · subst h1; decide
  · intro e; subst e
    have := (h t ht).2 '\n' hc2
    simp [pyIsSpace] at this

/-- C9: the about-text normalization (newlines to spaces, whitespace runs
collapsed, trimmed via split-and-rejoin) is idempotent: applied to an
already-normalized string it returns it unchanged. -/
theorem C9_about_normalize_idempotent (s : Str) :
    about_normalize (about_normalize s) = about_normalize s :=
  about_normalize_joinSp (pySplitWs (pyReplace2Sp (pyReplaceNl s)))
    (pySplitWs_good (pyReplace2Sp (pyReplaceNl s)))


/-! ### The experience fetch loop -/

theorem appendGroupedRecords_eq (row : Node) :
    ∀ rds acc, appendGroupedRecords row rds acc =
      (grouped_records row rds).map (fun g => acc ++ g) := by
  intro rds
  induction rds with
  | nil => intro acc; simp [appendGroupedRecords, grouped_records]
  | cons rd rds ih =>
    intro acc
    cases hp : parse_experience rd (some row) with
    | none => simp [appendGroupedRecords, grouped_records, hp]
    | some r =>
      simp only [appendGroupedRecords, grouped_records, hp]
      rw [ih (acc ++ [r])]
      cases hg : grouped_records row rds with
      | none => simp
      | some rs => simp

theorem grouped_records_length (row : Node) :
    ∀ rds g, grouped_records row rds = some g → g.length = rds.length := by
  intro rds
  induction rds with
  | nil => intro g h; simp [grouped_records] at h; simp [← h]
  | cons rd rds ih =>
    intro g h
    simp only [grouped_records] at h
    cases hp : parse_experience rd (some row) with
    | none => rw [hp] at h; simp at h
    | some r =>
      rw [hp] at h
      cases hg : grouped_records row rds with
      | none => rw [hg] at h; simp at h
      | some rs =>
        rw [hg] at h
        simp only [Option.some.injEq] at h
        subst h
        simp [ih rs hg]

theorem experience_row_step_shift (row : Node) (acc : List ExperienceData) :
    experience_row_step row acc = (row_records row).map (fun l => acc ++ l) := by
  rw [row_records]
  simp only [experience_row_step, appendGroupedRecords_eq]
  by_cases hg : (pySelect (hasClass "pv-entity__company-summary-info") row).isEmpty
  · rw [if_pos hg, if_pos hg]
    by_cases hf : (pySelect (hasClass "pv-entity__secondary-title") row).isEmpty
    · simp [hf]
    · simp only [if_neg hf]
      cases parse_experience row none with
      | none => simp
      | some r => simp
  · rw [if_neg hg, if_neg hg]
    cases grouped_records row (pySelect (hasClass "pv-entity__role-details") row) with
    | none => simp
    | some g =>
      simp only [Option.map_some']
      by_cases hf : (pySelect (hasClass "pv-entity__secondary-title") row).isEmpty
      · simp [hf]
      · simp only [if_neg hf]
        cases parse_experience row none with
        | none => simp
        | some r => simp

theorem fetch_experience_loop_join :
    ∀ (rows : List Node) (ls : List (List ExperienceData)),
      List.Forall₂ (fun row l => row_records row = some l) rows ls →
      ∀ acc, fetch_experience_loop rows acc = some (acc ++ ls.flatten) := by
  intro rows ls h
  induction h with
  | nil => intro acc; simp [fetch_experience_loop]
  | @cons row l rows2 ls2 hrl htail ih =>
    intro acc
    simp only [fetch_experience_loop]
    rw [experience_row_step_shift, hrl]
    simp only [Option.map_some']
    rw [ih (acc ++ l)]
    simp

/-- Shared step fact: the loop body of fetch_experience_data on an entry
matching both the grouped and the flat marker appends the grouped-path
records followed by the flat-path record. -/
theorem row_step_both (row : Node) (acc g : List ExperienceData) (f : ExperienceData)
    (hg : (pySelect (hasClass "pv-entity__company-summary-info") row).isEmpty = false)
    (hf : (pySelect (hasClass "pv-entity__secondary-title") row).isEmpty = false)
    (hgr : grouped_records row (pySelect (hasClass "pv-entity__role-details") row) = some g)
    (hfl : parse_experience row none = some f) :
    experience_row_step row acc = some (acc ++ g ++ [f]) := by
  simp only [experience_row_step, appendGroupedRecords_eq]
  rw [if_neg (by simp [hg]), hgr]
  simp only [Option.map_some']
  rw [if_neg (by simp [hf]), hfl]
  simp


/-! ### C1 -/

/-- C1: for an experience entry carrying both the grouped marker
(company-summary-info) and the flat marker (secondary-title), the loop body
of `fetch_experience_data` contributes records from both code paths — the
grouped-path records, one per role sub-entry, followed by one further
flat-path record: accumulation, not mutual exclusion. -/
theorem C1_both_paths_accumulate (row : Node) (acc g : List ExperienceData)
    (f : ExperienceData)
    (hg : (pySelect (hasClass "pv-entity__company-summary-info") row).isEmpty = false)
    (hf : (pySelect (hasClass "pv-entity__secondary-title") row).isEmpty = false)
    (hgr : grouped_records row (pySelect (hasClass "pv-entity__role-details") row) = some g)
    (hfl : parse_experience row none = some f) :
    experience_row_step row acc = some (acc ++ g ++ [f])
    ∧ (acc ++ g ++ [f]).length
        = acc.length + (pySelect (hasClass "pv-entity__role-details") row).length + 1 := by
  refine ⟨row_step_both row acc g f hg hf hgr hfl, ?_⟩
  have := grouped_records_length row _ g hgr
  simp [this]
  omega

theorem C1_both_paths_accumulate_witness :
    experience_row_step c1row [] = some (([] : List ExperienceData) ++ [c1grec] ++ [c1frec])
    ∧ (([] : List ExperienceData) ++ [c1grec] ++ [c1frec]).length
        = ([] : List ExperienceData).length
          + (pySelect (hasClass "pv-entity__role-details") c1row).length + 1 :=
  C1_both_paths_accumulate c1row [] [c1grec] c1frec
    (by decide) (by decide) (by decide) (by decide)

/-! ### C10 -/

/-- The experience loop really runs exactly once: the `html` element's one
child is the lxml `body` wrapper, so the output of
`fetch_experience_data` is the single loop-body contribution computed on
the whole fragment. -/
theorem fetch_experience_data_single_pass (entries : List Node) :
    fetch_experience_data entries = row_records (bodyWrap entries) := by
  show fetch_experience_loop [bodyWrap entries] [] = row_records (bodyWrap entries)
  rw [row_records]
  cases h : experience_row_step (bodyWrap entries) [] with
  | none => simp [fetch_experience_loop, h]
  | some acc => simp [fetch_experience_loop, h]

/-- C10 counterexample: a fragment with a flat entry followed by a grouped
entry.  The claimed document order would put the earlier (flat) entry's
record first, but the single loop pass emits all grouped-path records
before the one flat record, so the earlier entry's record comes last. -/
theorem C10_counterexample :
    fetch_experience_data [c10flatRow, c10groupedRow]
      = some [c10groupedRec, c10flatRec]
    ∧ ¬ fetch_experience_data [c10flatRow, c10groupedRow]
      = some [c10flatRec, c10groupedRec] :=
  ⟨by decide, by decide⟩

/-- C10 amended: `fetch_experience_data`'s loop runs exactly once, on the
lxml `body` wrapper around the fragment, so the output is the single
loop-body contribution on the whole fragment: all grouped-path records —
one per role-details element document-wide, in document order — followed
by at most one flat-path record parsed from the whole fragment (present
when a secondary-title exists anywhere); records for an earlier top-level
entry therefore need not precede those for a later one. -/
theorem C10_single_pass_order :
    (∀ entries : List Node,
      fetch_experience_data entries = row_records (bodyWrap entries))
    ∧ (∀ (entries : List Node) (g : List ExperienceData) (f : ExperienceData),
        (pySelect (hasClass "pv-entity__company-summary-info") (bodyWrap entries)).isEmpty
          = false →
        (pySelect (hasClass "pv-entity__secondary-title") (bodyWrap entries)).isEmpty
          = false →
        grouped_records (bodyWrap entries)
          (pySelect (hasClass "pv-entity__role-details") (bodyWrap entries)) = some g →
        parse_experience (bodyWrap entries) none = some f →
        fetch_experience_data entries = some (g ++ [f])) := by
  constructor
  · exact fetch_experience_data_single_pass
  · intro entries g f hg hf hgr hfl
    rw [fetch_experience_data_single_pass, row_records]
    have h := row_step_both (bodyWrap entries) [] g f hg hf hgr hfl
    simpa using h

theorem C10_single_pass_order_witness :
    fetch_experience_data [c10flatRow, c10groupedRow]
      = some ([c10groupedRec] ++ [c10flatRec]) :=
  C10_single_pass_order.2 [c10flatRow, c10groupedRow] [c10groupedRec] c10flatRec
    (by decide) (by decide) (by decide) (by decide)

/-! ### C2 -/

/-- C2 counterexample: a fragment with two well-formed top-level education
entries yields one record, not two — `_fetch_arbitrary_data` never reaches
its per-entry loop because `soup.select('html')[0]` is a Tag, which is not
a Python `list`. -/
theorem C2_counterexample :
    (fetch_education_data [c2entry1, c2entry2]).map List.length = some 1
    ∧ ¬ (fetch_education_data [c2entry1, c2entry2]).map List.length = some 2 :=
  ⟨by decide, by decide⟩

/-- C2 amended: for every education-section fragment, `fetch_education_data`
returns exactly one record whenever it succeeds, whatever the number of
top-level entries: `parse_education` is applied once to the whole fragment
(reading the first summary block found). -/
theorem C2_amended_single_record (entries : List Node) (l : List EducationData)
    (h : fetch_education_data entries = some l) : l.length = 1 := by
  rw [fetch_education_data, fetch_arbitrary_data] at h
  cases hp : parse_education (htmlRoot entries) with
  | none => rw [hp] at h; simp at h
  | some r =>
    rw [hp] at h
    simp only [Option.map_some', Option.some.injEq] at h
    simp [← h]

theorem C2_amended_single_record_witness :
    ([c2rec1] : List EducationData).length = 1 :=
  C2_amended_single_record [c2entry1, c2entry2] [c2rec1] (by decide)


/-! ### C3 -/

/-- C3 counterexample: on the spec's scenario fragment the extractor
returns company `"·Acme"`, not `"Acme"`: the lone `"·"` token does not
contain `"time"`, so it survives the filter and is concatenated with no
separator. -/
theorem C3_counterexample :
    (fetch_experience_data [c3row]).map (List.map ExperienceData.company)
      = some [str "·Acme"]
    ∧ str "·Acme" ≠ str "Acme" :=
  ⟨by decide, by decide⟩

/-- C3 amended: the flat-variant company rule is as claimed — the
secondary-title text split on whitespace, tokens containing `"time"`
dropped, the rest concatenated with no separator — but on the scenario
fragment this yields exactly one record with company `"·Acme"` (the
interpunct token is kept), position `"Engineer"`, startDate `"Jan 2020"`
and endDate `"Mar 2021"`. -/
theorem C3_amended_flat_company :
    (∀ (row st : Node) (r : ExperienceData),
      (pySelect (hasClass "pv-entity__secondary-title") row).head? = some st →
      parse_experience row none = some r →
      r.company = ((pySplitWs (getTextN st)).filter
          (fun t => !(hasSub (str "time") t))).flatten)
    ∧ fetch_experience_data [c3row] = some [c3record] := by
  constructor
  · intro row st r hst hr
    simp only [parse_experience] at hr
    cases hl : experience_location row with
    | none => rw [hl] at hr; simp at hr
    | some loc =>
      rw [hl] at hr
      cases hpc : flat_position_company row with
      | none => rw [hpc] at hr; simp at hr
      | some pc =>
        rw [hpc] at hr
        cases hd : experience_dates row with
        | none => rw [hd] at hr; simp at hr
        | some dates =>
          rw [hd] at hr
          simp only [Option.some.injEq] at hr
          simp only [flat_position_company] at hpc
          cases hh : (pySelect (hasTag "h3") row).head? with
          | none => rw [hh] at hpc; simp at hpc
          | some h3 =>
            rw [hh, hst] at hpc
            simp only [Option.some.injEq] at hpc
            rw [← hr, ← hpc]
  · decide

theorem C3_amended_flat_company_witness :
    c3record.company = ((pySplitWs (getTextN
        (Node.elem "span" ["pv-entity__secondary-title"] [.text (str "Full-time · Acme")]))).filter
      (fun t => !(hasSub (str "time") t))).flatten :=
  C3_amended_flat_company.1 c3row
    (Node.elem "span" ["pv-entity__secondary-title"] [.text (str "Full-time · Acme")])
    c3record rfl (by decide)

/-! ### C4 -/

/-- C4: an education entry whose summary block lacks the date-pair marker
block yields no record: `parse_education` fails hard
(`select('.pv-entity__dates')[0]` raises `IndexError`). -/
theorem C4_missing_dates_fails (row : Node)
    (h : ((pySelect (hasClass "pv-entity__summary-info") row).head?.all
          (fun ci => (pySelect (hasClass "pv-entity__dates") ci).isEmpty)) = true) :
    parse_education row = none := by
  simp only [parse_education]
  cases hs : (pySelect (hasClass "pv-entity__summary-info") row).head? with
  | none => rfl
  | some ci =>
    rw [hs] at h
    simp only [Option.all_some] at h
    have hdts : pySelect (hasClass "pv-entity__dates") ci = [] :=
      List.isEmpty_iff.mp h
    dsimp only
    cases hd : education_degree ci with
    | none => rfl
    | some deg =>
      dsimp only
      cases hf : education_fos ci with
      | none => rfl
      | some fos =>
        dsimp only
        have hed : education_dates ci = none := by
          simp only [education_dates, hdts]
          rfl
        rw [hed]

theorem C4_missing_dates_fails_witness :
    parse_education c4row = none :=
  C4_missing_dates_fails c4row (by decide)


/-! ### C5 -/

/-- C5 counterexample: a certification entry whose summary block holds
exactly one span makes `parse_certification` fail — the unguarded
`select('span')[1]` raises `IndexError` — instead of defaulting company to
the empty string. -/
theorem C5_counterexample :
    parse_certification c5oneSpanRow = none
    ∧ ¬ (∃ r : CertificationData, parse_certification c5oneSpanRow = some r) := by
  refine ⟨by decide, ?_⟩
  rintro ⟨r, hr⟩
  rw [show parse_certification c5oneSpanRow = none from by decide] at hr
  exact Option.noConfusion hr

/-- C5 amended: only issueDate/dueDate/credential are positionally guarded
(by the summary block's child count) and title defaults to empty when the
`h3` is absent; an empty span collection yields empty
company/issueDate/dueDate/credential with the title still read from the
`h3` if present; but company itself is read unguarded from span position 1,
so a non-empty span collection with exactly one span is a hard error for
the entry, not an empty-string default. -/
theorem C5_amended_defaults :
    (∀ (row ci : Node),
      (pySelect (hasClass "pv-certifications__summary-info") row).head? = some ci →
      (pySelect (hasTag "span") ci).isEmpty = true →
      parse_certification row = some
        { company := [], title := certification_title ci,
          issue_date := [], due_date := [], credential := [] })
    ∧ (∀ (row ci : Node),
      (pySelect (hasClass "pv-certifications__summary-info") row).head? = some ci →
      (pySelect (hasTag "span") ci).length = 1 →
      parse_certification row = none) := by
  constructor
  · intro row ci hci hsp
    simp only [parse_certification, hci]
    have hmf : certification_main_fields ci = some ([], [], [], []) := by
      simp only [certification_main_fields, hsp]
      rfl
    rw [hmf]
  · intro row ci hci hsp
    simp only [parse_certification, hci]
    have hne : (pySelect (hasTag "span") ci).isEmpty = false := by
      cases hl : pySelect (hasTag "span") ci with
      | nil => rw [hl] at hsp; simp at hsp
      | cons a l => simp
    have h1 : (pySelect (hasTag "span") ci)[1]? = none := by
      apply List.getElem?_eq_none
      omega
    have hmf : certification_main_fields ci = none := by
      simp only [certification_main_fields]
      rw [if_neg (by simp [hne])]
      rw [h1]
    rw [hmf]

theorem C5_amended_defaults_witness :
    parse_certification c5noSpanRow = some
      { company := [], title := certification_title
          (Node.elem "div" ["pv-certifications__summary-info"]
            [ .elem "h3" [] [.text (str "Cert Title")] ]),
        issue_date := [], due_date := [], credential := [] } :=
  C5_amended_defaults.1 c5noSpanRow
    (Node.elem "div" ["pv-certifications__summary-info"]
      [ .elem "h3" [] [.text (str "Cert Title")] ])
    rfl (by decide)

/-! ### C6 -/

/-- C6: with the surrounding extraction steps succeeding (location,
position/company, the date-range marker present with a second span), the
date extraction of `parse_experience` succeeds iff the second span's text
contains an en-dash — failure exactly on a dash-free date range — and on
success startDate/endDate are the stripped pieces 0 and 1 of the split. -/
theorem C6_date_range (row dr dsp : Node) (loc : Str) (pc : Str × Str)
    (hl : experience_location row = some loc)
    (hp : flat_position_company row = some pc)
    (hd : (pySelect (hasClass "pv-entity__date-range") row).head? = some dr)
    (hs : (pySelect (hasTag "span") dr)[1]? = some dsp) :
    ((parse_experience row none).isSome ↔ enDash ∈ getTextN dsp)
    ∧ (∀ (p0 p1 : Str) (ps : List Str),
        pySplitChar enDash (getTextN dsp) = p0 :: p1 :: ps →
        parse_experience row none = some
          { company := pc.2, start_date := pyStrip p0, end_date := pyStrip p1,
            position := pc.1, location := loc,
            description := experience_description row }) := by
  have hlen := splitChAux_length enDash (getTextN dsp) []
  have hmem := pySplitChar_getElem?_one_isSome_iff enDash (getTextN dsp)
  rcases hsp0 : pySplitChar enDash (getTextN dsp) with _ | ⟨p0, _ | ⟨p1, ps⟩⟩
  · rw [pySplitChar] at hsp0
    rw [hsp0] at hlen
    simp at hlen
  · have hdates : experience_dates row = none := by
      simp only [experience_dates, hd]
      simp only [hs, hsp0]
      simp
    have hparse : parse_experience row none = none := by
      simp only [parse_experience, hl]
      simp only [hp, hdates]
    constructor
    · rw [hparse]
      rw [hsp0] at hmem
      simp only [← hmem]
      simp
    · intro q0 q1 qs hq
      simp at hq
  · have hdates : experience_dates row = some (pyStrip p0, pyStrip p1) := by
      simp only [experience_dates, hd]
      simp only [hs, hsp0]
      simp
    have hparse : parse_experience row none = some
        { company := pc.2, start_date := pyStrip p0, end_date := pyStrip p1,
          position := pc.1, location := loc,
          description := experience_description row } := by
      simp only [parse_experience, hl]
      simp only [hp, hdates]
    constructor
    · rw [hparse]
      rw [hsp0] at hmem
      simp only [← hmem]
      simp
    · intro q0 q1 qs hq
      simp only [List.cons.injEq] at hq
      obtain ⟨h0, h1, h2⟩ := hq
      subst h0
      subst h1
      exact hparse

theorem C6_date_range_witness :
    parse_experience c6row none = some
      { company := str "GammaLLC", start_date := str "Apr 2018",
        end_date := str "May 2019", position := str "Dev",
        location := [], description := [] } := by
  have h := (C6_date_range c6row c6dr c6dsp [] (str "Dev", str "GammaLLC")
      (by decide) (by decide) rfl rfl).2
      (str "Apr 2018 ") (str " May 2019") [] (by decide)
  rw [h]
  decide

/-! ### C7 -/

set_option maxRecDepth 40000 in
/-- C7 counterexample: with no reveal controls at all the first pass finds
none, yet expansion does not terminate there — it performs the full
100-pass recursion budget before the `RecursionError` is caught. -/
theorem C7_counterexample :
    (expand_items recursion_limit []).2.2 = 100
    ∧ ¬ (expand_items recursion_limit []).2.2 = 1 :=
  ⟨by decide, by decide⟩

theorem expand_items_passes (d : Nat) : ∀ cs : List RevealControl,
    (expand_items d cs).2.2 = d := by
  induction d with
  | zero => intro cs; rfl
  | succ d ih => intro cs; simp [expand_items, ih]

/-- C7 amended: `_expand_items` recurses unconditionally after every pass,
so expansion runs passes equal to the full depth ceiling (100) whatever the
controls' states — there is no early exit when a pass finds every control
already expanded or finds none — and reaching the ceiling terminates
silently (the `RecursionError` is caught and expansion returns normally). -/
theorem C7_amended_ceiling_passes (cs : List RevealControl) :
    (expand_items recursion_limit cs).2.2 = recursion_limit :=
  expand_items_passes recursion_limit cs

/-! ### C8 -/

/-- C8 counterexample: a non-stale, unexpanded control that is NOT
clickable is still clicked (1 click instead of the claimed 0): the
clickability conjunct is an uninvoked condition object, always truthy. -/
theorem C8_counterexample :
    (scan_pass [{ ariaExpanded := none, clickable := false, stale := false }]).2 = 1
    ∧ ¬ (scan_pass [{ ariaExpanded := none, clickable := false, stale := false }]).2 = 0 :=
  ⟨by decide, by decide⟩

set_option maxRecDepth 40000 in
/-- C8 amended: in a scan pass a click is dispatched on a control iff it is
not stale and its expanded-state attribute is not `"true"`; actual
clickability is never consulted.  On the spec's scenario exactly one click
is dispatched in total, and expansion runs the full 100 passes rather than
terminating after 2. -/
theorem C8_amended_click_condition :
    (∀ c : RevealControl,
      (scan_pass [c]).2 = if !c.stale && (c.ariaExpanded != some (str "true")) then 1 else 0)
    ∧ (∀ (c : RevealControl) (b : Bool),
      (scan_pass [{ c with clickable := b }]).2 = (scan_pass [c]).2)
    ∧ expand_items recursion_limit c8controls =
        ([ { ariaExpanded := some (str "true"), clickable := false, stale := false },
           { ariaExpanded := some (str "true"), clickable := false, stale := false },
           { ariaExpanded := some (str "true"), clickable := true, stale := false } ], 1, 100) := by
  refine ⟨?_, ?_, by decide⟩
  · intro c
    rcases c with ⟨ae, cl, st⟩
    cases st
    · by_cases hae : ae = some (str "true") <;>
        simp [scan_pass, ec_element_to_be_clickable, hae]
    · simp [scan_pass]
  · intro c b
    rcases c with ⟨ae, cl, st⟩
    cases st
    · by_cases hae : ae = some (str "true") <;>
        simp [scan_pass, ec_element_to_be_clickable, hae]
    · simp [scan_pass]

end LinkedinCrawler
